import Mathlib

/-!
Verification development for the MyDramaList search bot (`mdlv3.py`).

The file shallowly embeds the scraper's parsing functions
(`search_dramas`, `get_drama_details`), the session manager's `close`,
and the two interaction handlers (`drama_command`, `drama_callback`)
as trace-producing functions over explicit environments that record
which external calls succeed or fail.  Theorems about these
definitions settle the specification claims.
-/

namespace Mdl

/-! ## Python string primitives -/

/-- Characters removed by Python's `str.strip()` with no argument. -/
def pyWhite (c : Char) : Bool :=
  c = ' ' || c = '\t' || c = '\n' || c = '\r' || c = '\x0b' || c = '\x0c'

/-- Python `s.strip()`: drop leading and trailing whitespace. -/
def pyStrip (s : String) : String :=
  ⟨((s.data.dropWhile pyWhite).reverse.dropWhile pyWhite).reverse⟩

/-- Python `s.rstrip(c)` for a single character: drop trailing copies of `c`. -/
def pyRstrip (c : Char) (s : String) : String :=
  ⟨(s.data.reverse.dropWhile (fun d => d = c)).reverse⟩

/-- Fueled worker for Python `str.replace`: replace each non-overlapping
occurrence of the non-empty pattern `p :: ps` by `rep`, scanning left to
right and never rescanning replaced text.  The fuel is at least the
length of the scanned list, so it never runs out. -/
def pyReplaceAux (p : Char) (ps rep : List Char) : Nat → List Char → List Char
  | _, [] => []
  | 0, s => s
  | fuel + 1, c :: t =>
    if (p :: ps).isPrefixOf (c :: t) then
      rep ++ pyReplaceAux p ps rep fuel (List.drop ps.length t)
    else
      c :: pyReplaceAux p ps rep fuel t

/-- Python `s.replace(pat, rep)` (all non-overlapping occurrences,
left to right).  The empty-pattern case never arises in the source. -/
def pyReplace (s pat rep : String) : String :=
  match pat.data with
  | [] => s
  | p :: ps => ⟨pyReplaceAux p ps rep.data s.data.length s.data⟩

/-- Worker: does the non-empty pattern occur as a contiguous sublist? -/
def hasOccurAux (pat : List Char) : List Char → Bool
  | [] => pat.isPrefixOf ([] : List Char)
  | c :: t => pat.isPrefixOf (c :: t) || hasOccurAux pat t

/-- Python `pat in s`: contiguous-substring test. -/
def hasOccur (pat s : String) : Bool :=
  hasOccurAux pat.data s.data

/-! ## The scraper's constants (`MyDramaListScraper`) -/

/-- The constant `MyDramaListScraper.BASE_URL`. -/
def BASE_URL : String := "https://mydramalist.com"

/-- The search URL built in `search_dramas`:
`f"\x7bself.BASE_URL\x7d/search?q=\x7bquery\x7d"` — the query is embedded
verbatim, with no percent-encoding. -/
def search_url (query : String) : String :=
  BASE_URL ++ "/search?q=" ++ query

/-! ## Search-result page model and `search_dramas`' parsing -/

/-- An `<a>` tag inside a result title: its text and optional `href`. -/
structure Anchor where
  text : String
  href : Option String
deriving DecidableEq

/-- An `<h6 class="title">` tag: `box.find('h6', class_='title')`'s hit,
holding the optional inner anchor (`title_tag.find('a')`). -/
structure TitleTag where
  anchor : Option Anchor
deriving DecidableEq

/-- A `<div>` element of the search page, as seen by
`soup.find_all('div', class_='box', id=...)`: its optional `id`
attribute, whether it carries the `box` class, the optional title tag,
and the optional `<span class="text-muted">` text. -/
structure DramaBox where
  idAttr : Option String
  isBox : Bool
  titleTag : Option TitleTag
  typeSpan : Option String
deriving DecidableEq

/-- One search result as built by `search_dramas`. -/
structure SearchResult where
  id : String
  title : String
  url : String
  type_year : String
deriving DecidableEq

/-- The `find_all` filter: class `box` and
`id=lambda x: x and x.startswith('mdl-')`. -/
def boxMatches (b : DramaBox) : Bool :=
  b.isBox &&
    (match b.idAttr with
     | none => false
     | some x => !(x = "") && (("mdl-").data.isPrefixOf x.data))

/-- The loop body of `search_dramas`: skip the box unless it has a
title tag containing an anchor; otherwise build the result record. -/
def parseBox (b : DramaBox) : Option SearchResult :=
  match b.titleTag with
  | none => none
  | some tt =>
    match tt.anchor with
    | none => none
    | some a =>
      some
        { id := pyReplace ((b.idAttr).getD ("")) ("mdl-") ("")
          title := pyStrip a.text
          url := BASE_URL ++ (a.href.getD (""))
          type_year := ((b.typeSpan.map pyStrip)).getD ("") }

/-- The parsing portion of `search_dramas`: take the first 10 boxes
matching the filter (`drama_boxes[:10]`), then keep those with a title
tag and anchor. -/
def search_dramas_parse (page : List DramaBox) : List SearchResult :=
  ((page.filter boxMatches).take 10).filterMap parseBox

/-- Total variant of `parseBox`, used to state document-order results
for pages whose matching boxes all carry a title tag and anchor. -/
def entryOf (b : DramaBox) : SearchResult :=
  { id := pyReplace ((b.idAttr).getD ("")) ("mdl-") ("")
    title := pyStrip (((b.titleTag.bind (fun tt => tt.anchor)).getD ⟨"", none⟩).text)
    url := BASE_URL ++ (((b.titleTag.bind (fun tt => tt.anchor)).getD ⟨"", none⟩).href.getD (""))
    type_year := ((b.typeSpan.map pyStrip)).getD ("") }

/-- A matching box is good when it has a title tag, an anchor, and the
anchor's stripped text is non-empty. -/
def goodBox (b : DramaBox) : Bool :=
  match b.titleTag with
  | none => false
  | some tt =>
    match tt.anchor with
    | none => false
    | some a => !(pyStrip a.text = "")

/-- A well-formed search page: every box matching the structural marker
is good (title element with an anchor whose text is non-blank). -/
def wellFormedPage (page : List DramaBox) : Bool :=
  page.all (fun b => !(boxMatches b) || goodBox b)

/-! ## Detail page model and `get_drama_details`' parsing -/

/-- An `<li class="list-item">` of the info list: the optional text of
`item.find('b', class_='inline')` and the item's full stripped text
(`item.get_text(strip=True)`). -/
structure InfoItem where
  bTag : Option String
  fullText : String
deriving DecidableEq

/-- The structure `get_drama_details` reads off a fetched detail page.
`ratingInner` is the nesting of `div.col-film-rating` (outer `Option`)
around `rating_div.find('div', class_='box')` (inner `Option` of the
inner element's text).  `synopsisText` is the text of
`div.show-synopsis` after its `<a>` children are decomposed;
`genreTexts` holds the texts of `li.show-genres`' `a.text-primary`
anchors when that list item exists. -/
structure DetailPage where
  filmTitle : Option String
  posterImg : Option String
  ratingInner : Option (Option String)
  infoItems : List InfoItem
  synopsisText : Option String
  genreTexts : Option (List String)
deriving DecidableEq

/-- The detail record returned by `get_drama_details`. -/
structure DetailRecord where
  title : String
  image_url : String
  rating : String
  country : String
  type : String
  episodes : String
  aired : String
  duration : String
  genres : String
  synopsis : String
  url : String
deriving DecidableEq

/-- Image-URL normalization in `get_drama_details`: a protocol-relative
URL gets `https:`, a root-relative one gets the base URL; empty or
`http...` URLs pass through. -/
def normalizeImage (image0 : String) : String :=
  if !(image0 = "") && !(("http").data.isPrefixOf image0.data) then
    if ("//").data.isPrefixOf image0.data then ("https:") ++ image0
    else BASE_URL ++ image0
  else image0

/-- Rating extraction
`rating_div.find('div', class_='box').text.strip() if rating_div
else 'N/A'`: a missing outer container falls back to `N/A`, but a
present outer container with a missing inner `box` raises
(`AttributeError` on `None.text`), modelled as `none`. -/
def extract_rating : Option (Option String) → Option String
  | none => some ("N/A")
  | some none => none
  | some (some t) => some (pyStrip t)

/-- The info-dictionary construction: for each list item with a bold
inline label, key is the label stripped of blanks and trailing colons,
value is the item text with `key + ':'` removed, stripped. -/
def buildInfo (items : List InfoItem) : List (String × String) :=
  items.filterMap (fun it =>
    match it.bTag with
    | none => none
    | some bt =>
      let key := pyRstrip ':' (pyStrip bt)
      some (key, pyStrip (pyReplace it.fullText (key ++ (":")) (""))))

/-- Python-dict lookup over insert order (later assignments win). -/
def lookupInfo (info : List (String × String)) (k : String) : Option String :=
  info.foldl (fun acc p => if p.1 = k then some p.2 else acc) none

/-- The lookup `info.get(k1, info.get(k2, 'N/A'))`. -/
def infoGet2 (info : List (String × String)) (k1 k2 : String) : String :=
  ((lookupInfo info k1).getD ((lookupInfo info k2).getD ("N/A")))

/-- Synopsis truncation: `synopsis[:500] + '...'` when longer than 500
characters, otherwise unchanged. -/
def truncSynopsis (s : String) : String :=
  if s.data.length > 500 then (⟨s.data.take 500⟩ : String) ++ ("...") else s

/-- Processing of a fetched page by `get_drama_details`.  A `none` input
models `_get_page_content` returning no HTML; the output is `none`
also when the rating extraction raises (the function-level
`except Exception` catches it and returns `None`). -/
def get_drama_details (drama_url : String) (content : Option DetailPage) :
    Option DetailRecord :=
  match content with
  | none => none
  | some p =>
    match extract_rating p.ratingInner with
    | none => none
    | some rating =>
      let info := buildInfo p.infoItems
      let genres := ((p.genreTexts).getD []).map pyStrip
      some
        { title := ((p.filmTitle.map pyStrip)).getD ("Unknown")
          image_url := normalizeImage ((p.posterImg).getD (""))
          rating := rating
          country := infoGet2 info ("Country") ("Pays")
          type := infoGet2 info ("Type") ("Catégorie")
          episodes := infoGet2 info ("Episodes") ("Épisodes")
          aired := infoGet2 info ("Aired") ("Diffusé")
          duration := infoGet2 info ("Duration") ("Durée")
          genres := if genres.isEmpty then ("N/A") else String.intercalate (", ") genres
          synopsis := truncSynopsis ((p.synopsisText).getD (""))
          url := drama_url }

/-! ## The session manager's `close` (`MyDramaListScraper.close`) -/

/-- The two handles held by the scraper: `self.browser` and
`self.playwright` (`true` = not `None`). -/
structure ScraperConn where
  browser : Bool
  playwright : Bool
deriving DecidableEq

/-- Which teardown calls fail (raise) when attempted. -/
structure CloseEnv where
  browserCloseFails : Bool
  playwrightStopFails : Bool
deriving DecidableEq

/-- External calls `close` can make. -/
inductive CloseEv where
  | browserClose
  | playwrightStop
deriving DecidableEq

/-- The method `MyDramaListScraper.close`: close the browser if present, stop the
driver if present; on any exception the `except` clause resets both
handles.  Returns the new state, whether an exception escaped the
method (never — the `except Exception` swallows it), and the teardown
calls attempted. -/
def scraper_close (s : ScraperConn) (e : CloseEnv) :
    ScraperConn × Bool × List CloseEv :=
  if s.browser then
    if e.browserCloseFails then (⟨false, false⟩, false, [.browserClose])
    else if s.playwright then
      if e.playwrightStopFails then
        (⟨false, false⟩, false, [.browserClose, .playwrightStop])
      else (⟨false, false⟩, false, [.browserClose, .playwrightStop])
    else (⟨false, false⟩, false, [.browserClose])
  else
    if s.playwright then
      if e.playwrightStopFails then (⟨false, false⟩, false, [.playwrightStop])
      else (⟨false, false⟩, false, [.playwrightStop])
    else (⟨false, false⟩, false, [])

/-! ## Interaction traces

The two handlers are modelled as functions from an environment — which
records the page contents the network would deliver and which outbound
messaging calls fail — to the sequence of externally visible events the
handler performs, in program order. -/

/-- Externally visible events of one interaction. -/
inductive Ev where
  | browserLaunch
  | fetch (url : String)
  | parseSearch
  | parseDetail
  | closeCall
  | renderNoResults
  | renderResults
  | renderGenericError
  | renderStaleError
  | renderNotFound
  | renderLoading
  | renderNoDetails
  | deleteMsg
  | sendPhoto (caption : String)
  | renderDetailText (caption : String)
deriving DecidableEq

/-- Number of actual browser teardowns in a trace: a `closeCall` only
closes a browser when one is live, and `browserLaunch` brings one up. -/
def countCloses : Bool → List Ev → Nat
  | _, [] => 0
  | _, .browserLaunch :: t => countCloses true t
  | live, .closeCall :: t => (if live then 1 else 0) + countCloses false t
  | live, _ :: t => countCloses live t

/-- Per-user stored state: `user_data[user_id]`'s `query` and
`results` entries. -/
structure UserEntry where
  query : String
  results : List SearchResult
deriving DecidableEq

/-- Environment of one `/drama` command: whether the browser launch
succeeds, the search page the fetch would deliver (`none` = no HTML),
and which `edit_text` calls raise. -/
structure CmdEnv where
  launchOk : Bool
  content : Option (List DramaBox)
  editNoResultsFails : Bool
  editResultsFails : Bool
deriving DecidableEq

/-- The call of `search_dramas` by the command handler: its own
`except Exception` means it never raises; a launch failure or missing
HTML yields `[]`. -/
def search_dramas_model (q : String) (env : CmdEnv) :
    List Ev × List SearchResult :=
  if env.launchOk then
    match env.content with
    | none => ([.browserLaunch, .fetch (search_url q)], [])
    | some page =>
      ([.browserLaunch, .fetch (search_url q), .parseSearch],
        search_dramas_parse page)
  else ([], [])

/-- The tail of `drama_command` after `search_dramas` returns: close
the browser, then either report no results or store the results and
render the keyboard; an exception in either edit reaches the handler's
`except`, which closes again and reports a generic error.  The store
into `user_data` happens before the results edit, so it survives an
edit failure. -/
def cmdAfter (q : String) (pre : List Ev) (results : List SearchResult)
    (ud : Option UserEntry) (env : CmdEnv) : List Ev × Option UserEntry :=
  if results.isEmpty then
    (pre ++ [.closeCall] ++
      (if env.editNoResultsFails then [.closeCall, .renderGenericError]
       else [.renderNoResults]), ud)
  else
    (pre ++ [.closeCall] ++
      (if env.editResultsFails then [.closeCall, .renderGenericError]
       else [.renderResults]),
      some ⟨q, results⟩)

/-- The `/drama` handler (`drama_command`) from the point where a
non-empty query has been extracted: returns the event trace and the
user's stored entry after the interaction. -/
def drama_command (q : String) (ud : Option UserEntry) (env : CmdEnv) :
    List Ev × Option UserEntry :=
  cmdAfter q (search_dramas_model q env).1 (search_dramas_model q env).2 ud env

/-- The selector string `callback_data=f"mdl_\x7bdrama['id']\x7d"` (line 309). -/
def wrap_callback (id : String) : String :=
  ("mdl_") ++ id

/-- The strip `callback_query.data.replace('mdl_', '')` (line 337). -/
def strip_callback (data : String) : String :=
  pyReplace data ("mdl_") ("")

/-- Environment of one detail-view callback.  `fallbackEditFails`
models a failure of the fallback edit for reasons other than the
message having been deleted (that dependency is forced, not an
environment choice: see `deliverFallback`). -/
structure CbEnv where
  launchOk : Bool
  content : Option DetailPage
  deleteFails : Bool
  sendPhotoFails : Bool
  editDetailFails : Bool
  fallbackEditFails : Bool
  editNoDetailsFails : Bool
deriving DecidableEq

/-- The inner `except` of the delivery block: edit the loading message
(`callback_query.message`) with the text-only caption, then close.
That edit can succeed only while the loading message still exists; the
photo path deletes it (line 387) **before** `send_photo`, so when
`deleted` is true the fallback edit necessarily fails on the messaging
platform.  A failed fallback edit raises into the outer `except`,
which closes the browser and then attempts a generic-error edit of the
same message — which again necessarily fails when the message was
deleted, so no message at all reaches the user on that path. -/
def deliverFallback (cap : String) (deleted : Bool) (env : CbEnv) : List Ev :=
  if deleted || env.fallbackEditFails then
    .closeCall :: (if deleted then [] else [.renderGenericError])
  else [.renderDetailText cap, .closeCall]

/-- The caption built by `drama_callback` (lines 368–376). -/
def formatCaption (d : DetailRecord) : String :=
  ("<b>") ++ d.title ++ ("</b>\n\n") ++
  ("⭐ <b>Rating:</b> ") ++ d.rating ++ ("/10\n") ++
  ("🌍 <b>Country:</b> ") ++ d.country ++ ("\n") ++
  ("📺 <b>Type:</b> ") ++ d.type ++ ("\n") ++
  ("📊 <b>Episodes:</b> ") ++ d.episodes ++ ("\n") ++
  ("📅 <b>Aired:</b> ") ++ d.aired ++ ("\n") ++
  ("⏱ <b>Duration:</b> ") ++ d.duration ++ ("\n") ++
  ("🎭 <b>Genres:</b> ") ++ d.genres ++ ("\n\n") ++
  ("📖 <b>Synopsis:</b>\n") ++ d.synopsis

/-- The delivery block (lines 384–424): photo with caption when an
image URL is present (deleting the loading message first), text-only
otherwise; any failure inside falls back to a text-only edit of the
same caption — an edit which can only succeed if the loading message
was not already deleted; each successful path closes the browser at
its end. -/
def deliverDetails (d : DetailRecord) (env : CbEnv) : List Ev :=
  if !(d.image_url = "") then
    if env.deleteFails then deliverFallback (formatCaption d) false env
    else if env.sendPhotoFails then
      .deleteMsg :: deliverFallback (formatCaption d) true env
    else [.deleteMsg, .sendPhoto (formatCaption d), .closeCall]
  else
    if env.editDetailFails then deliverFallback (formatCaption d) false env
    else [.renderDetailText (formatCaption d), .closeCall]

/-- What follows once `get_drama_details` has returned: on `None`,
close and report; otherwise deliver the record. -/
def afterDetails (od : Option DetailRecord) (env : CbEnv) : List Ev :=
  match od with
  | none =>
    .closeCall ::
      (if env.editNoDetailsFails then [.closeCall, .renderGenericError]
       else [.renderNoDetails])
  | some d => deliverDetails d env

/-- The stored-result lookup of `drama_callback` (first match wins). -/
def lookupDrama (data : String) (ud : Option UserEntry) : Option SearchResult :=
  match ud with
  | none => none
  | some entry =>
    entry.results.find? (fun r => decide (r.id = strip_callback data))

/-- Whether the callback reaches the point where a browser session is
opened (a stored result matched and the launch succeeds). -/
def sessionOpens (data : String) (ud : Option UserEntry) (env : CbEnv) : Bool :=
  env.launchOk && (lookupDrama data ud).isSome

/-- The callback handler (`drama_callback`): strip the namespace tag,
look the id up in the stored results, fetch and parse the detail page,
deliver the record. -/
def drama_callback (data : String) (ud : Option UserEntry) (env : CbEnv) :
    List Ev :=
  match ud with
  | none => [.renderStaleError]
  | some entry =>
    match entry.results.find? (fun r => decide (r.id = strip_callback data)) with
    | none => [.renderNotFound]
    | some drama =>
      .renderLoading ::
        (if env.launchOk then
          match env.content with
          | none => [.browserLaunch, .fetch drama.url] ++ afterDetails none env
          | some p =>
            [.browserLaunch, .fetch drama.url, .parseDetail] ++
              afterDetails (get_drama_details drama.url (some p)) env
         else afterDetails none env)

/-- The result list a `/drama` interaction computes. -/
def searchResults (q : String) (env : CmdEnv) : List SearchResult :=
  (search_dramas_model q env).2

/-- Events that render something to the user (message edits, photo
sends, deletions of the loading message). -/
def isRenderEv (e : Ev) : Bool :=
  match e with
  | .renderNoResults => true
  | .renderResults => true
  | .renderGenericError => true
  | .renderStaleError => true
  | .renderNotFound => true
  | .renderLoading => true
  | .renderNoDetails => true
  | .deleteMsg => true
  | .sendPhoto _ => true
  | .renderDetailText _ => true
  | _ => false

/-- A valid search box with numbered id, title and link. -/
def numBox (i : String) : DramaBox :=
  ⟨some (("mdl-") ++ i), true, some ⟨some ⟨("Title ") ++ i, some (("/") ++ i)⟩⟩, none⟩

/-- Ten valid matching boxes with ids `1`..`10`. -/
def tenGood : List DramaBox :=
  [numBox ("1"), numBox ("2"), numBox ("3"), numBox ("4"), numBox ("5"),
    numBox ("6"), numBox ("7"), numBox ("8"), numBox ("9"), numBox ("10")]

/-- A matching box with no title element (skipped by the loop). -/
def badBox : DramaBox := ⟨some ("mdl-bad"), true, none, none⟩

/-! ## Helper lemmas -/

theorem length_filterMap_countP {α β : Type} (f : α → Option β) :
    ∀ l : List α, (l.filterMap f).length = l.countP (fun a => (f a).isSome) := by
  intro l
  induction l with
  | nil => rfl
  | cons a t ih =>
    cases h : f a with
    | none => simp [List.filterMap_cons, h, List.countP_cons, ih]
    | some b => simp [List.filterMap_cons, h, List.countP_cons, ih]

theorem parseBox_eq_of_good (b : DramaBox) (h : goodBox b = true) :
    parseBox b = some (entryOf b) := by
  rcases b with ⟨ia, ib, tt, ts⟩
  cases tt with
  | none => simp [goodBox] at h
  | some t =>
    cases ha : t.anchor with
    | none => simp [goodBox, ha] at h
    | some a => simp [parseBox, entryOf, ha]

theorem title_ne_of_good (b : DramaBox) (h : goodBox b = true) :
    (entryOf b).title ≠ "" := by
  rcases b with ⟨ia, ib, tt, ts⟩
  cases tt with
  | none => simp [goodBox] at h
  | some t =>
    cases ha : t.anchor with
    | none => simp [goodBox, ha] at h
    | some a =>
      simp [goodBox, ha] at h
      simpa [entryOf, ha] using h

theorem base_append_ne_empty (s : String) : BASE_URL ++ s ≠ "" := by
  intro h
  have h2 := congrArg String.length h
  rw [String.length_append] at h2
  have h3 : BASE_URL.length = 23 := by decide
  simp [h3] at h2

theorem filterMap_parseBox_eq_map :
    ∀ l : List DramaBox, (∀ b ∈ l, goodBox b = true) →
      l.filterMap parseBox = l.map entryOf := by
  intro l
  induction l with
  | nil => intro _; rfl
  | cons b t ih =>
    intro hl
    have hb := hl b (List.mem_cons_self b t)
    rw [List.filterMap_cons, parseBox_eq_of_good b hb, List.map_cons]
    rw [ih (fun x hx => hl x (List.mem_cons_of_mem b hx))]

theorem good_of_wellFormed (page : List DramaBox)
    (hwf : wellFormedPage page = true) :
    ∀ b ∈ (page.filter boxMatches).take 10, goodBox b = true := by
  intro b hb
  have hmem := List.take_subset 10 (page.filter boxMatches) hb
  rw [List.mem_filter] at hmem
  have hw := List.all_eq_true.mp hwf b hmem.1
  simpa [hmem.2] using hw

theorem afterDetails_none_closes (env : CbEnv) :
    ∃ tl, afterDetails none env = Ev.closeCall :: tl ∧
      ∀ e ∈ tl, isRenderEv e = true ∨ e = Ev.closeCall := by
  rcases env with ⟨lk, ct, df, spf, edf, fef, enf⟩
  cases enf <;> exact ⟨_, rfl, by simp [isRenderEv]⟩

theorem deliverDetails_tail_ok (d : DetailRecord) (env : CbEnv) :
    ∀ e ∈ deliverDetails d env, isRenderEv e = true ∨ e = Ev.closeCall := by
  rcases env with ⟨lk, ct, df, spf, edf, fef, enf⟩
  by_cases hi : d.image_url = ""
  · cases edf <;> cases fef <;>
      simp [deliverDetails, deliverFallback, hi, isRenderEv]
  · cases df <;> cases spf <;> cases fef <;>
      simp [deliverDetails, deliverFallback, hi, isRenderEv]

/-! ## Claim theorems -/

/-- Claim C7: the session manager's `close` is idempotent and never
raises past its boundary: it always ends in the no-browser state (both
handles cleared) even when a teardown call errors, closing an
already-closed manager performs no teardown call, and a second `close`
after any `close` performs no teardown call. -/
theorem c7_close_idempotent :
    ∀ (s : ScraperConn) (e e2 : CloseEnv),
      (scraper_close s e).1 = ⟨false, false⟩ ∧
      (scraper_close s e).2.1 = false ∧
      scraper_close ⟨false, false⟩ e2 = (⟨false, false⟩, false, []) ∧
      (scraper_close (scraper_close s e).1 e2).2.2 = [] := by
  intro s e e2
  rcases s with ⟨b, p⟩
  rcases e with ⟨bf, pf⟩
  rcases e2 with ⟨bf2, pf2⟩
  cases b <;> cases p <;> cases bf <;> cases pf <;>
    cases bf2 <;> cases pf2 <;> simp [scraper_close]

/-- Claim C9 (amended): a completed search overwrites the user's
stored entry only when it produced at least one result; a zero-result
search leaves the prior stored entry (query and results) intact. -/
theorem c9_amended :
    ∀ (q : String) (ud : Option UserEntry) (env : CmdEnv),
      (drama_command q ud env).2 =
        if (searchResults q env).isEmpty then ud
        else some ⟨q, searchResults q env⟩ := by
  intro q ud env
  unfold drama_command cmdAfter searchResults
  split <;> rfl

/-- Claim C9 counterexample: a user holds results from query `q1`; a
new search for `q2` completes with zero results (the interaction ends
with the "not found" message), yet the stored entry still carries `q1`
and its result list — the prior set survives the new search. -/
theorem c9_counterexample :
    (drama_command ("q2")
        (some ⟨("q1"), [⟨("1"), ("Title One"), ("https://mydramalist.com/1"), ("")⟩]⟩)
        ⟨true, some [], false, false⟩).2 =
      some ⟨("q1"), [⟨("1"), ("Title One"), ("https://mydramalist.com/1"), ("")⟩]⟩ ∧
    (drama_command ("q2")
        (some ⟨("q1"), [⟨("1"), ("Title One"), ("https://mydramalist.com/1"), ("")⟩]⟩)
        ⟨true, some [], false, false⟩).1 =
      [Ev.browserLaunch, Ev.fetch (search_url ("q2")), Ev.parseSearch,
        Ev.closeCall, Ev.renderNoResults] ∧
    ("q1") ≠ ("q2") := by
  refine ⟨rfl, rfl, by decide⟩

/-- Claim C10: the search fetches exactly the URL formed by
concatenating the base URL, the literal `/search?q=`, and the query
verbatim — character for character, with no escaping. -/
theorem c10_verbatim_url :
    ∀ (q : String) (ud : Option UserEntry) (env : CmdEnv),
      env.launchOk = true →
      Ev.fetch (BASE_URL ++ ("/search?q=") ++ q) ∈ (drama_command q ud env).1 ∧
      (search_url q).data = (BASE_URL ++ ("/search?q=")).data ++ q.data := by
  intro q ud env h
  constructor
  · have he : Ev.fetch (BASE_URL ++ ("/search?q=") ++ q) =
        Ev.fetch (search_url q) := rfl
    rw [he]
    rcases env with ⟨lk, ct, e1, e2⟩
    cases lk with
    | false => cases h
    | true =>
      cases ct with
      | none =>
        simp [drama_command, cmdAfter, search_dramas_model]
      | some page =>
        by_cases hres : (search_dramas_parse page).isEmpty
        · cases e1 <;> simp [drama_command, cmdAfter, search_dramas_model, hres]
        · cases e2 <;> simp [drama_command, cmdAfter, search_dramas_model, hres]
  · rw [search_url, String.data_append]

/-- Claim C2 (amended): on a well-formed search page whose `N` marker
containers each hold a title element and an anchor with non-blank
text, the parse returns exactly `min(N, 10)` entries, in document
order (the image of the first ten matching containers), each with
non-empty title and non-empty detail URL; the id is the container
identifier with every occurrence of the marker prefix removed, and can
be empty. -/
theorem c2_amended :
    ∀ page : List DramaBox, wellFormedPage page = true →
      search_dramas_parse page =
        ((page.filter boxMatches).take 10).map entryOf ∧
      (search_dramas_parse page).length =
        min ((page.filter boxMatches).length) 10 ∧
      (∀ r ∈ search_dramas_parse page,
        r.title ≠ "" ∧ r.url ≠ "" ∧
        ∃ b ∈ (page.filter boxMatches).take 10,
          r = entryOf b ∧
          r.id = pyReplace ((b.idAttr).getD ("")) ("mdl-") ("")) := by
  intro page hwf
  have hgood := good_of_wellFormed page hwf
  have hmap : search_dramas_parse page =
      ((page.filter boxMatches).take 10).map entryOf :=
    filterMap_parseBox_eq_map _ hgood
  refine ⟨hmap, ?_, ?_⟩
  · rw [hmap, List.length_map, List.length_take, Nat.min_comm]
  · intro r hr
    rw [hmap, List.mem_map] at hr
    obtain ⟨b, hb, rfl⟩ := hr
    exact ⟨title_ne_of_good b (hgood b hb), base_append_ne_empty _,
      b, hb, rfl, rfl⟩

/-- Claim C2 counterexample: a well-formed page with one matching
container whose identifier is exactly the marker prefix `mdl-` (title
and anchor present, title text non-empty) yields one entry whose id is
the empty string — refuting "every returned entry has a non-empty
id". -/
theorem c2_counterexample :
    wellFormedPage
        [⟨some ("mdl-"), true, some ⟨some ⟨("Squid Game"), some ("/1")⟩⟩, none⟩] =
      true ∧
    (search_dramas_parse
        [⟨some ("mdl-"), true, some ⟨some ⟨("Squid Game"), some ("/1")⟩⟩, none⟩]).map
        (fun r => r.id) = [("")] := by
  decide

/-- Claim C3 (amended): invalid matching containers are skipped, but
the cap of 10 applies to the input scan, not the output: the result
length is the number of valid containers among the **first ten**
matching ones (so an invalid container within the first ten does
reduce the output, and matching containers beyond the first ten never
contribute); the output has at most 10 entries and is a sublist — in
document order — of the full uncapped parse. -/
theorem c3_amended :
    ∀ page : List DramaBox,
      (search_dramas_parse page).length =
        ((page.filter boxMatches).take 10).countP
          (fun b => (parseBox b).isSome) ∧
      (search_dramas_parse page).length ≤ 10 ∧
      (search_dramas_parse page).Sublist
        ((page.filter boxMatches).filterMap parseBox) := by
  intro page
  refine ⟨length_filterMap_countP parseBox _, ?_, ?_⟩
  · calc (search_dramas_parse page).length
        ≤ ((page.filter boxMatches).take 10).length :=
          List.length_filterMap_le parseBox _
      _ ≤ 10 := List.length_take_le 10 _
  · exact List.Sublist.filterMap parseBox (List.take_sublist 10 _)

/-- Claim C3 counterexample: with ten valid matching containers the
parse returns all ten (id `10` included); prepending a single invalid
matching container drops the output to **nine** entries and the still
valid, still present container `10` disappears — the cap is applied to
the input scan, the invalid container consumes one of the ten slots,
and later valid containers do not fill in, refuting the claim. -/
theorem c3_counterexample :
    (search_dramas_parse tenGood).length = 10 ∧
    ((search_dramas_parse tenGood).map (fun r => r.id)).contains ("10") = true ∧
    (search_dramas_parse (badBox :: tenGood)).length = 9 ∧
    ((search_dramas_parse (badBox :: tenGood)).map (fun r => r.id)).contains ("10") =
      false := by
  decide

/-- Claim C4 (amended): unless the rating container is present with
its inner value element missing, `get_drama_details` produces the
whole record, with each individually missing field falling back to its
default (`Unknown` title, empty image, `N/A` rating and info fields
and genres, empty synopsis) while present fields are extracted; but a
partially present rating container (`ratingInner = some none`) aborts
the whole record. -/
theorem c4_amended :
    ∀ (drama_url : String) (p : DetailPage),
      p.ratingInner ≠ some none →
      ∃ r, get_drama_details drama_url (some p) = some r ∧
        (p.filmTitle = none → r.title = ("Unknown")) ∧
        (∀ t, p.filmTitle = some t → r.title = pyStrip t) ∧
        (p.posterImg = none → r.image_url = "") ∧
        (p.ratingInner = none → r.rating = ("N/A")) ∧
        (∀ t, p.ratingInner = some (some t) → r.rating = pyStrip t) ∧
        (p.infoItems = [] → r.country = ("N/A") ∧ r.type = ("N/A") ∧
          r.episodes = ("N/A") ∧ r.aired = ("N/A") ∧ r.duration = ("N/A")) ∧
        (p.genreTexts = none → r.genres = ("N/A")) ∧
        (p.synopsisText = none → r.synopsis = "") ∧
        r.url = drama_url := by
  intro du p hr
  rcases p with ⟨ft, pi, ri, ii, syn, gt⟩
  cases ri with
  | none =>
    refine ⟨_, rfl, ?_, ?_, ?_, ?_, ?_, ?_, ?_, ?_, rfl⟩
    · intro h; subst h; rfl
    · intro t h; simp only at h; subst h; rfl
    · intro h; subst h; rfl
    · intro h; rfl
    · intro t h; simp at h
    · intro h; simp only at h; subst h; exact ⟨rfl, rfl, rfl, rfl, rfl⟩
    · intro h; subst h; rfl
    · intro h; subst h; rfl
  | some o =>
    cases o with
    | none => exact absurd rfl hr
    | some t0 =>
      refine ⟨_, rfl, ?_, ?_, ?_, ?_, ?_, ?_, ?_, ?_, rfl⟩
      · intro h; subst h; rfl
      · intro t h; simp only at h; subst h; rfl
      · intro h; subst h; rfl
      · intro h; simp at h
      · intro t h
        simp only at h
        injection h with h1
        injection h1 with h2
        subst h2
        rfl
      · intro h; simp only at h; subst h; exact ⟨rfl, rfl, rfl, rfl, rfl⟩
      · intro h; subst h; rfl
      · intro h; subst h; rfl

theorem isPrefixOf_append_self :
    ∀ (l t : List Char), l.isPrefixOf (l ++ t) = true := by
  intro l
  induction l with
  | nil => intro t; simp [List.isPrefixOf]
  | cons c cs ih => intro t; simp [List.isPrefixOf, ih]

theorem pyReplaceAux_no_occur (p : Char) (ps rep : List Char) :
    ∀ (fuel : Nat) (s : List Char), s.length ≤ fuel →
      hasOccurAux (p :: ps) s = false → pyReplaceAux p ps rep fuel s = s := by
  intro fuel
  induction fuel with
  | zero =>
    intro s hs _
    cases s with
    | nil => rfl
    | cons c t => simp at hs
  | succ n ih =>
    intro s hs ho
    cases s with
    | nil => rfl
    | cons c t =>
      simp only [hasOccurAux, Bool.or_eq_false_iff] at ho
      simp only [pyReplaceAux, ho.1, Bool.false_eq_true, if_false]
      have ht : t.length ≤ n := by simp at hs; omega
      rw [ih t ht ho.2]

theorem strip_wrap_aux (idl : List Char)
    (ho : hasOccurAux ('m' :: 'd' :: 'l' :: '_' :: []) idl = false) :
    pyReplaceAux 'm' ['d', 'l', '_'] []
        (('m' :: 'd' :: 'l' :: '_' :: idl).length)
        ('m' :: 'd' :: 'l' :: '_' :: idl) = idl := by
  have hp : (('m' : Char) :: 'd' :: 'l' :: '_' :: []).isPrefixOf
      ('m' :: 'd' :: 'l' :: '_' :: idl) = true :=
    isPrefixOf_append_self ['m', 'd', 'l', '_'] idl
  simp only [List.length_cons, pyReplaceAux, hp, if_true, List.drop,
    List.nil_append]
  exact pyReplaceAux_no_occur 'm' ['d', 'l', '_'] [] (idl.length + 1 + 1 + 1)
    idl (by omega) ho

/-- Claim C8 (amended): the id round-trips through the selection
mechanism — wrapping with the namespace tag `mdl_` and stripping it
back with `replace` returns the original id — exactly for ids that do
**not** contain the namespace tag as a substring; `replace` removes
every occurrence, so ids containing `mdl_` are mangled. -/
theorem c8_amended :
    ∀ id : String, hasOccur ("mdl_") id = false →
      strip_callback (wrap_callback id) = id := by
  intro id h
  have hdata : (wrap_callback id).data = 'm' :: 'd' :: 'l' :: '_' :: id.data := by
    show (("mdl_") ++ id).data = _
    rw [String.data_append]
    rfl
  show (⟨pyReplaceAux 'm' ['d', 'l', '_'] (String.data (""))
      ((wrap_callback id).data.length) ((wrap_callback id).data)⟩ : String) = id
  rw [hdata]
  rw [strip_wrap_aux id.data h]

/-- Claim C8 counterexample: the container id `mdl-abmdl_cd` is parsed
into the emitted result id `abmdl_cd`, which contains the namespace
tag `mdl_`; wrapping it into the selector `mdl_abmdl_cd` and stripping
with `replace('mdl_', '')` yields `abcd ≠ abmdl_cd`, so the callback's
lookup misses the stored item and the user gets "Drama not found". -/
theorem c8_counterexample :
    (search_dramas_parse
        [⟨some ("mdl-abmdl_cd"), true,
          some ⟨some ⟨("Test Drama"), some ("/test")⟩⟩, none⟩]).map
        (fun r => r.id) = [("abmdl_cd")] ∧
    strip_callback (wrap_callback ("abmdl_cd")) = ("abcd") ∧
    ("abcd") ≠ ("abmdl_cd") ∧
    drama_callback (wrap_callback ("abmdl_cd"))
        (some ⟨("q"),
          search_dramas_parse
            [⟨some ("mdl-abmdl_cd"), true,
              some ⟨some ⟨("Test Drama"), some ("/test")⟩⟩, none⟩]⟩)
        ⟨true, none, false, false, false, false, false⟩ =
      [Ev.renderNotFound] := by
  decide

/-- Claim C4 counterexample: a detail page with every field present
except the rating container's inner value element (`col-film-rating`
present, inner `box` missing) makes `get_drama_details` fail the whole
record (it raises `AttributeError`, caught into `None`) — refuting
"a partially present rating container does not abort extraction of the
rest of the record". -/
theorem c4_counterexample :
    get_drama_details ("https://mydramalist.com/1")
        (some ⟨some ("Vincenzo"), some ("/img.jpg"), some none,
          [⟨some ("Country:"), ("Country:South Korea")⟩],
          some ("A story."), some [("Drama")]⟩) = none ∧
    (⟨some ("Vincenzo"), some ("/img.jpg"), some none,
        [⟨some ("Country:"), ("Country:South Korea")⟩],
        some ("A story."), some [("Drama")]⟩ : DetailPage).ratingInner =
      some none ∧
    (⟨some ("Vincenzo"), some ("/img.jpg"), some none,
        [⟨some ("Country:"), ("Country:South Korea")⟩],
        some ("A story."), some [("Drama")]⟩ : DetailPage).filmTitle ≠ none := by
  decide

/-- Claim C1: every interaction that opens a browser session closes it
exactly once before it finishes, on every path including exceptions in
the outbound message edits (conjuncts 1 and 2, for the search command
and the detail callback, counting actual teardowns of a live browser);
and when the search fetch returns no HTML, the parse is never invoked,
the session is still closed exactly once, and (when the edit itself
succeeds) the user is told nothing was found (conjunct 3). -/
theorem c1_close_exactly_once :
    (∀ (q : String) (ud : Option UserEntry) (env : CmdEnv),
        countCloses false (drama_command q ud env).1 =
          if env.launchOk then 1 else 0) ∧
    (∀ (data : String) (ud : Option UserEntry) (env : CbEnv),
        countCloses false (drama_callback data ud env) =
          if sessionOpens data ud env then 1 else 0) ∧
    (∀ (q : String) (ud : Option UserEntry) (env : CmdEnv),
        env.launchOk = true → env.content = none →
          Ev.parseSearch ∉ (drama_command q ud env).1 ∧
          countCloses false (drama_command q ud env).1 = 1 ∧
          (env.editNoResultsFails = false →
            (drama_command q ud env).1 =
              [Ev.browserLaunch, Ev.fetch (search_url q), Ev.closeCall,
                Ev.renderNoResults])) := by
  refine ⟨?_, ?_, ?_⟩
  · intro q ud env
    rcases env with ⟨lk, ct, e1, e2⟩
    cases lk with
    | false => cases e1 <;> rfl
    | true =>
      cases ct with
      | none => cases e1 <;> rfl
      | some page =>
        by_cases h : (search_dramas_parse page).isEmpty
        · cases e1 <;>
            simp [drama_command, cmdAfter, search_dramas_model, h, countCloses]
        · cases e2 <;>
            simp [drama_command, cmdAfter, search_dramas_model, h, countCloses]
  · intro data ud env
    rcases env with ⟨lk, ct, df, spf, edf, fef, enf⟩
    cases ud with
    | none => simp [drama_callback, sessionOpens, lookupDrama, countCloses]
    | some entry =>
      cases hf : entry.results.find? (fun r => decide (r.id = strip_callback data)) with
      | none => simp [drama_callback, sessionOpens, lookupDrama, hf, countCloses]
      | some drama =>
        simp only [drama_callback, sessionOpens, lookupDrama, hf,
          Option.isSome_some, Bool.and_true]
        cases lk with
        | false => cases enf <;> rfl
        | true =>
          cases ct with
          | none => cases enf <;> rfl
          | some p =>
            cases hd : get_drama_details drama.url (some p) with
            | none =>
              cases enf <;> simp [hd, afterDetails, countCloses]
            | some d =>
              by_cases hi : d.image_url = ""
              · cases edf <;> cases fef <;>
                  simp [hd, afterDetails, deliverDetails, deliverFallback, hi,
                    countCloses]
              · cases df <;> cases spf <;> cases fef <;>
                  simp [hd, afterDetails, deliverDetails, deliverFallback, hi,
                    countCloses]
  · intro q ud env h1 h2
    rcases env with ⟨lk, ct, e1, e2⟩
    simp only at h1 h2
    subst h1
    subst h2
    refine ⟨?_, ?_, ?_⟩
    · cases e1 <;> simp [drama_command, cmdAfter, search_dramas_model]
    · cases e1 <;> rfl
    · intro h3
      simp only at h3
      subst h3
      rfl

/-- Claim C5 (amended): within one interaction, fetch precedes parse
and both precede all user-visible rendering of the outcome, in the
search command and in the detail callback alike — but the session
close does not always follow rendering: the search handler closes the
browser **before** rendering the outcome (conjunct 1), the detail
callback performs fetch, then parse, before any outcome render or
close (conjunct 2), the failed-detail paths close **before** rendering
their outcome (last parts of conjunct 2), and only the successful
detail delivery renders before its close (conjunct 3). -/
theorem c5_amended :
    (∀ (q : String) (ud : Option UserEntry) (env : CmdEnv),
        env.launchOk = true →
        ∃ mid tail,
          (drama_command q ud env).1 =
            [Ev.browserLaunch, Ev.fetch (search_url q)] ++ mid ++
              [Ev.closeCall] ++ tail ∧
          (mid = [] ∨ mid = [Ev.parseSearch]) ∧
          (∀ e ∈ tail, isRenderEv e = true ∨ e = Ev.closeCall)) ∧
    (∀ (data : String) (entry : UserEntry) (drama : SearchResult)
        (env : CbEnv),
        entry.results.find? (fun r => decide (r.id = strip_callback data)) =
          some drama →
        env.launchOk = true →
        ∃ mid rest,
          drama_callback data (some entry) env =
            [Ev.renderLoading, Ev.browserLaunch, Ev.fetch drama.url] ++
              mid ++ rest ∧
          (mid = [] ∨ mid = [Ev.parseDetail]) ∧
          (∀ p, env.content = some p → mid = [Ev.parseDetail]) ∧
          (∀ e ∈ rest, isRenderEv e = true ∨ e = Ev.closeCall) ∧
          (env.content = none →
            ∃ tl, rest = Ev.closeCall :: tl ∧
              ∀ e ∈ tl, isRenderEv e = true ∨ e = Ev.closeCall) ∧
          (∀ p, env.content = some p →
            get_drama_details drama.url (some p) = none →
            ∃ tl, rest = Ev.closeCall :: tl ∧
              ∀ e ∈ tl, isRenderEv e = true ∨ e = Ev.closeCall)) ∧
    (∀ (d : DetailRecord) (env : CbEnv),
        env.deleteFails = false → env.sendPhotoFails = false →
        env.editDetailFails = false →
        deliverDetails d env =
          [Ev.deleteMsg, Ev.sendPhoto (formatCaption d), Ev.closeCall] ∨
        deliverDetails d env =
          [Ev.renderDetailText (formatCaption d), Ev.closeCall]) := by
  refine ⟨?_, ?_, ?_⟩
  · intro q ud env h1
    rcases env with ⟨lk, ct, e1, e2⟩
    simp only at h1
    subst h1
    cases ct with
    | none =>
      cases e1 with
      | true =>
        exact ⟨[], [Ev.closeCall, Ev.renderGenericError], rfl, Or.inl rfl,
          by simp [isRenderEv]⟩
      | false =>
        exact ⟨[], [Ev.renderNoResults], rfl, Or.inl rfl, by simp [isRenderEv]⟩
    | some page =>
      by_cases h : (search_dramas_parse page).isEmpty
      · cases e1 with
        | true =>
          refine ⟨[Ev.parseSearch], [Ev.closeCall, Ev.renderGenericError],
            by simp [drama_command, cmdAfter, search_dramas_model, h],
            Or.inr rfl, by simp [isRenderEv]⟩
        | false =>
          refine ⟨[Ev.parseSearch], [Ev.renderNoResults],
            by simp [drama_command, cmdAfter, search_dramas_model, h],
            Or.inr rfl, by simp [isRenderEv]⟩
      · cases e2 with
        | true =>
          refine ⟨[Ev.parseSearch], [Ev.closeCall, Ev.renderGenericError],
            by simp [drama_command, cmdAfter, search_dramas_model, h],
            Or.inr rfl, by simp [isRenderEv]⟩
        | false =>
          refine ⟨[Ev.parseSearch], [Ev.renderResults],
            by simp [drama_command, cmdAfter, search_dramas_model, h],
            Or.inr rfl, by simp [isRenderEv]⟩
  · intro data entry drama env hf hl
    rcases env with ⟨lk, ct, df, spf, edf, fef, enf⟩
    simp only at hl
    subst hl
    cases ct with
    | none =>
      have htr : drama_callback data (some entry)
          ⟨true, none, df, spf, edf, fef, enf⟩ =
          [Ev.renderLoading, Ev.browserLaunch, Ev.fetch drama.url] ++ [] ++
            afterDetails none ⟨true, none, df, spf, edf, fef, enf⟩ := by
        simp only [drama_callback, hf]
        rfl
      obtain ⟨tl, htl, hmem⟩ :=
        afterDetails_none_closes ⟨true, none, df, spf, edf, fef, enf⟩
      refine ⟨[], afterDetails none ⟨true, none, df, spf, edf, fef, enf⟩,
        htr, Or.inl rfl, ?_, ?_, ?_, ?_⟩
      · intro p hp; simp at hp
      · rw [htl]
        intro e he
        rcases List.mem_cons.mp he with rfl | h2
        · exact Or.inr rfl
        · exact hmem e h2
      · intro _; exact ⟨tl, htl, hmem⟩
      · intro p hp; simp at hp
    | some p =>
      have htr : drama_callback data (some entry)
          ⟨true, some p, df, spf, edf, fef, enf⟩ =
          [Ev.renderLoading, Ev.browserLaunch, Ev.fetch drama.url] ++
            [Ev.parseDetail] ++
            afterDetails (get_drama_details drama.url (some p))
              ⟨true, some p, df, spf, edf, fef, enf⟩ := by
        simp only [drama_callback, hf]
        rfl
      cases hd : get_drama_details drama.url (some p) with
      | none =>
        rw [hd] at htr
        obtain ⟨tl, htl, hmem⟩ :=
          afterDetails_none_closes ⟨true, some p, df, spf, edf, fef, enf⟩
        refine ⟨[Ev.parseDetail],
          afterDetails none ⟨true, some p, df, spf, edf, fef, enf⟩,
          htr, Or.inr rfl, fun _ _ => rfl, ?_, ?_, ?_⟩
        · rw [htl]
          intro e he
          rcases List.mem_cons.mp he with rfl | h2
          · exact Or.inr rfl
          · exact hmem e h2
        · intro h; simp at h
        · intro p2 hp2 _
          exact ⟨tl, htl, hmem⟩
      | some d =>
        rw [hd] at htr
        refine ⟨[Ev.parseDetail],
          deliverDetails d ⟨true, some p, df, spf, edf, fef, enf⟩,
          htr, Or.inr rfl, fun _ _ => rfl, ?_, ?_, ?_⟩
        · exact deliverDetails_tail_ok d _
        · intro h; simp at h
        · intro p2 hp2 hd2
          simp only at hp2
          injection hp2 with hp3
          subst hp3
          rw [hd] at hd2
          cases hd2
  · intro d env hd hs he
    rcases env with ⟨lk, ct, df, spf, edf, fef, enf⟩
    simp only at hd hs he
    subst hd
    subst hs
    subst he
    by_cases hi : d.image_url = ""
    · right; simp [deliverDetails, hi]
    · left; simp [deliverDetails, hi]

/-- Claim C5 counterexample: a successful search interaction closes
the browser session (index 3 of the trace) strictly before rendering
the results to the user (index 4) — refuting "rendering precedes
closing the browser session" for the search interaction. -/
theorem c5_counterexample :
    (drama_command ("Squid Game") none ⟨true, some [numBox ("1")], false, false⟩).1 =
      [Ev.browserLaunch, Ev.fetch (search_url ("Squid Game")), Ev.parseSearch,
        Ev.closeCall, Ev.renderResults] ∧
    List.findIdx (fun e => decide (e = Ev.closeCall))
        (drama_command ("Squid Game") none
          ⟨true, some [numBox ("1")], false, false⟩).1 = 3 ∧
    List.findIdx (fun e => decide (e = Ev.renderResults))
        (drama_command ("Squid Game") none
          ⟨true, some [numBox ("1")], false, false⟩).1 = 4 := by
  decide

/-- Claim C6 (code bug): on the failing input — a detail view whose
record has a non-empty image URL, where the loading-message delete
succeeds and the photo send is then rejected — the handler has already
deleted the only message it could edit (line 387 precedes the send at
line 390), so the inner-except fallback edit (line 416) and the
outer-except generic edit (line 429) both target a deleted message and
fail: the trace delivers **no** text rendering of the caption and no
generic error either; the user gets nothing, though the browser
session is still closed exactly once.  The claim's promised text-only
fallback delivery cannot occur on this path. -/
theorem c6_fallback_lost :
    drama_callback ("mdl_1")
        (some ⟨("q"), [⟨("1"), ("T"), ("https://mydramalist.com/t"), ("")⟩]⟩)
        ⟨true,
          some ⟨some ("T"), some ("/img.jpg"), some (some ("8.5")), [],
            some ("Syn"), some [("Drama")]⟩,
          false, true, false, false, false⟩ =
      [Ev.renderLoading, Ev.browserLaunch,
        Ev.fetch ("https://mydramalist.com/t"), Ev.parseDetail,
        Ev.deleteMsg, Ev.closeCall] ∧
    (∀ cap, Ev.renderDetailText cap ∉
      drama_callback ("mdl_1")
        (some ⟨("q"), [⟨("1"), ("T"), ("https://mydramalist.com/t"), ("")⟩]⟩)
        ⟨true,
          some ⟨some ("T"), some ("/img.jpg"), some (some ("8.5")), [],
            some ("Syn"), some [("Drama")]⟩,
          false, true, false, false, false⟩) ∧
    Ev.renderGenericError ∉
      drama_callback ("mdl_1")
        (some ⟨("q"), [⟨("1"), ("T"), ("https://mydramalist.com/t"), ("")⟩]⟩)
        ⟨true,
          some ⟨some ("T"), some ("/img.jpg"), some (some ("8.5")), [],
            some ("Syn"), some [("Drama")]⟩,
          false, true, false, false, false⟩ ∧
    countCloses false
      (drama_callback ("mdl_1")
        (some ⟨("q"), [⟨("1"), ("T"), ("https://mydramalist.com/t"), ("")⟩]⟩)
        ⟨true,
          some ⟨some ("T"), some ("/img.jpg"), some (some ("8.5")), [],
            some ("Syn"), some [("Drama")]⟩,
          false, true, false, false, false⟩) = 1 := by
  have htr : drama_callback ("mdl_1")
      (some ⟨("q"), [⟨("1"), ("T"), ("https://mydramalist.com/t"), ("")⟩]⟩)
      ⟨true,
        some ⟨some ("T"), some ("/img.jpg"), some (some ("8.5")), [],
          some ("Syn"), some [("Drama")]⟩,
        false, true, false, false, false⟩ =
      [Ev.renderLoading, Ev.browserLaunch,
        Ev.fetch ("https://mydramalist.com/t"), Ev.parseDetail,
        Ev.deleteMsg, Ev.closeCall] := by decide
  refine ⟨htr, ?_, ?_, ?_⟩
  · intro cap
    rw [htr]
    simp
  · rw [htr]
    simp
  · rw [htr]
    rfl

/-! ## Witnesses -/

theorem c1_witness :
    countCloses false
        (drama_command ("q") none ⟨true, some [numBox ("1")], false, false⟩).1 =
      (if (⟨true, some [numBox ("1")], false, false⟩ : CmdEnv).launchOk then 1
       else 0) ∧
    countCloses false
        (drama_callback ("mdl_x") none
          ⟨true, none, false, false, false, false, false⟩) =
      (if sessionOpens ("mdl_x") none
          ⟨true, none, false, false, false, false, false⟩ then 1 else 0) ∧
    (Ev.parseSearch ∉ (drama_command ("q") none ⟨true, none, false, false⟩).1 ∧
      countCloses false (drama_command ("q") none ⟨true, none, false, false⟩).1 =
        1 ∧
      ((⟨true, none, false, false⟩ : CmdEnv).editNoResultsFails = false →
        (drama_command ("q") none ⟨true, none, false, false⟩).1 =
          [Ev.browserLaunch, Ev.fetch (search_url ("q")), Ev.closeCall,
            Ev.renderNoResults])) :=
  ⟨c1_close_exactly_once.1 ("q") none ⟨true, some [numBox ("1")], false, false⟩,
    c1_close_exactly_once.2.1 ("mdl_x") none
      ⟨true, none, false, false, false, false, false⟩,
    c1_close_exactly_once.2.2 ("q") none ⟨true, none, false, false⟩ rfl rfl⟩

theorem c2_witness :
    wellFormedPage [numBox ("7")] = true ∧
    (search_dramas_parse [numBox ("7")] =
      (([numBox ("7")].filter boxMatches).take 10).map entryOf ∧
    (search_dramas_parse [numBox ("7")]).length =
      min (([numBox ("7")].filter boxMatches).length) 10 ∧
    (∀ r ∈ search_dramas_parse [numBox ("7")],
      r.title ≠ "" ∧ r.url ≠ "" ∧
      ∃ b ∈ ([numBox ("7")].filter boxMatches).take 10,
        r = entryOf b ∧
        r.id = pyReplace ((b.idAttr).getD ("")) ("mdl-") (""))) :=
  ⟨by decide, c2_amended [numBox ("7")] (by decide)⟩

theorem c4_witness :
    ∃ r, get_drama_details ("u")
        (some (⟨none, none, none, [], none, none⟩ : DetailPage)) = some r ∧
      ((none : Option String) = none → r.title = ("Unknown")) ∧
      (∀ t, (none : Option String) = some t → r.title = pyStrip t) ∧
      ((none : Option String) = none → r.image_url = "") ∧
      ((none : Option (Option String)) = none → r.rating = ("N/A")) ∧
      (∀ t, (none : Option (Option String)) = some (some t) →
        r.rating = pyStrip t) ∧
      (([] : List InfoItem) = [] → r.country = ("N/A") ∧ r.type = ("N/A") ∧
        r.episodes = ("N/A") ∧ r.aired = ("N/A") ∧ r.duration = ("N/A")) ∧
      ((none : Option (List String)) = none → r.genres = ("N/A")) ∧
      ((none : Option String) = none → r.synopsis = "") ∧
      r.url = ("u") :=
  c4_amended ("u") ⟨none, none, none, [], none, none⟩ (by decide)

theorem c5_witness :
    (∃ mid tail,
      (drama_command ("q") none ⟨true, none, false, false⟩).1 =
        [Ev.browserLaunch, Ev.fetch (search_url ("q"))] ++ mid ++
          [Ev.closeCall] ++ tail ∧
      (mid = [] ∨ mid = [Ev.parseSearch]) ∧
      (∀ e ∈ tail, isRenderEv e = true ∨ e = Ev.closeCall)) ∧
    (∃ mid rest,
      drama_callback ("mdl_1")
          (some ⟨("q"), [⟨("1"), ("T"), ("u1"), ("")⟩]⟩)
          ⟨true, none, false, false, false, false, false⟩ =
        [Ev.renderLoading, Ev.browserLaunch, Ev.fetch ("u1")] ++ mid ++
          rest ∧
      (mid = [] ∨ mid = [Ev.parseDetail]) ∧
      (∀ p, (none : Option DetailPage) = some p → mid = [Ev.parseDetail]) ∧
      (∀ e ∈ rest, isRenderEv e = true ∨ e = Ev.closeCall) ∧
      ((none : Option DetailPage) = none →
        ∃ tl, rest = Ev.closeCall :: tl ∧
          ∀ e ∈ tl, isRenderEv e = true ∨ e = Ev.closeCall) ∧
      (∀ p, (none : Option DetailPage) = some p →
        get_drama_details ("u1") (some p) = none →
        ∃ tl, rest = Ev.closeCall :: tl ∧
          ∀ e ∈ tl, isRenderEv e = true ∨ e = Ev.closeCall)) ∧
    (deliverDetails
        ⟨("T"), (""), ("8.5"), ("KR"), ("Drama"), ("16"), ("2020"),
          ("60 min"), ("Thriller"), ("Syn"), ("u")⟩
        ⟨true, none, false, false, false, false, false⟩ =
      [Ev.deleteMsg,
        Ev.sendPhoto (formatCaption
          ⟨("T"), (""), ("8.5"), ("KR"), ("Drama"), ("16"), ("2020"),
            ("60 min"), ("Thriller"), ("Syn"), ("u")⟩), Ev.closeCall] ∨
     deliverDetails
        ⟨("T"), (""), ("8.5"), ("KR"), ("Drama"), ("16"), ("2020"),
          ("60 min"), ("Thriller"), ("Syn"), ("u")⟩
        ⟨true, none, false, false, false, false, false⟩ =
      [Ev.renderDetailText (formatCaption
          ⟨("T"), (""), ("8.5"), ("KR"), ("Drama"), ("16"), ("2020"),
            ("60 min"), ("Thriller"), ("Syn"), ("u")⟩), Ev.closeCall]) :=
  ⟨c5_amended.1 ("q") none ⟨true, none, false, false⟩ rfl,
    c5_amended.2.1 ("mdl_1") ⟨("q"), [⟨("1"), ("T"), ("u1"), ("")⟩]⟩
      ⟨("1"), ("T"), ("u1"), ("")⟩
      ⟨true, none, false, false, false, false, false⟩ (by decide) rfl,
    c5_amended.2.2
      ⟨("T"), (""), ("8.5"), ("KR"), ("Drama"), ("16"), ("2020"),
        ("60 min"), ("Thriller"), ("Syn"), ("u")⟩
      ⟨true, none, false, false, false, false, false⟩ rfl rfl rfl⟩

theorem c8_witness :
    hasOccur ("mdl_") ("12345") = false ∧
    strip_callback (wrap_callback ("12345")) = ("12345") :=
  ⟨by decide, c8_amended ("12345") (by decide)⟩

theorem c10_witness :
    Ev.fetch (BASE_URL ++ ("/search?q=") ++ ("Squid Game & #1")) ∈
      (drama_command ("Squid Game & #1") none ⟨true, none, false, false⟩).1 ∧
    (search_url ("Squid Game & #1")).data =
      (BASE_URL ++ ("/search?q=")).data ++ ("Squid Game & #1").data :=
  c10_verbatim_url ("Squid Game & #1") none ⟨true, none, false, false⟩ rfl

end Mdl
